import Mathlib

/-!
Verification development for a repository of two Python HTTP client wrappers
(`src/birdeye/birdeye.py` and `src/dexscreener/dexscreener.py`) around the
BirdEye and DexScreener price APIs.  The Python code is shallowly embedded:
JSON payloads become an inductive `Json` type, Python `decimal.Decimal` and
`float` values become exact fractions (`PyNum`), Python exceptions become an
`Except PyRaise` monad, the HTTP transport becomes a function parameter
`String → HttpResp`, and the list of URLs actually requested is returned
alongside each operation's outcome so that "no network call happened" is a
statement about that list.
-/

/-- Exact number: the value `num / den`.  Every value constructed by the
embedding has `den > 0`.  Python `Decimal` values (constructed, never
arithmetically combined, in this code base) and `float` values (always
dyadic rationals) are both represented this way; no normalization is
performed, so all operations are plain `Int`/`Nat` arithmetic. -/
structure PyNum where
  num : Int
  den : Nat
  deriving DecidableEq, Repr

/-- Python comparison `a < b` for nonnegative denominators: cross
multiplication. -/
def PyNum.ltB (a b : PyNum) : Bool := a.num * (b.den : Int) < b.num * (a.den : Int)

/-- Python comparison `a == b` between two numbers (also across `int`,
`float`, `bool` and `Decimal`): cross multiplication. -/
def PyNum.eqB (a b : PyNum) : Bool := a.num * (b.den : Int) == b.num * (a.den : Int)

/-- The exact decimal zero, `Decimal('0')`. -/
def pyZero : PyNum := ⟨0, 1⟩

/-- The float literal `-1` initializing `max_liquidity_usd` in
`find_largest_pool_with_sol`. -/
def pyNegOne : PyNum := ⟨-1, 1⟩

/-- Python objects as decoded from a JSON body by `response.json()`.
`intNum` carries a Python `int`, `floatNum` a Python `float` (represented by
its exact dyadic value), `obj` a `dict` in insertion order. -/
inductive Json where
  | null : Json
  | bool (b : Bool) : Json
  | intNum (n : Int) : Json
  | floatNum (q : PyNum) : Json
  | str (s : String) : Json
  | arr (elems : List Json) : Json
  | obj (fields : List (String × Json)) : Json

/-- Structural log2 (`natLog2 n = ⌊log₂ n⌋` for `n ≥ 1`, `0` at `0`),
written with explicit fuel so the kernel can evaluate it. -/
def natLog2Aux : Nat → Nat → Nat
  | 0, _ => 0
  | fuel+1, n => if n ≤ 1 then 0 else 1 + natLog2Aux fuel (n / 2)

def natLog2 (n : Nat) : Nat := natLog2Aux n n

/-- Structural power of two. -/
def pow2 : Nat → Nat
  | 0 => 1
  | n+1 => 2 * pow2 n

/-- Structural power of ten. -/
def pow10 : Nat → Nat
  | 0 => 1
  | n+1 => 10 * pow10 n

/-- Whether `p / d < 2 ^ e` (for positive `p`, `d`), with `e : Int`. -/
def ratLtPow2 (p d : Nat) (e : Int) : Bool :=
  if 0 ≤ e then p < d * pow2 e.toNat else p * pow2 (-e).toNat < d

/-- Round-to-nearest, ties-to-even, of `n / d` (for `d > 0`): models IEEE-754
significand rounding. -/
def roundHalfEvenNat (n d : Nat) : Nat :=
  let q := n / d
  let r := n % d
  if 2 * r < d then q else if d < 2 * r then q + 1 else if q % 2 = 0 then q else q + 1

/-- Conversion of an exact positive value `p / d` to the nearest IEEE-754
double (round to 53 significant bits, ties to even): models Python `float()`
applied to an `int` or to a numeric string, in the binade-normal range used
by this code base (overflow to infinity and subnormals are outside the
payloads modelled here). -/
def floatRoundPos (p d : Nat) : PyNum :=
  let e0 : Int := (natLog2 p : Int) - (natLog2 d : Int)
  let e : Int := if ratLtPow2 p d e0 then e0 - 1 else e0
  let scaled : Nat × Nat :=
    if 0 ≤ 52 - e then (p * pow2 (52 - e).toNat, d) else (p, d * pow2 (e - 52).toNat)
  let m := roundHalfEvenNat scaled.1 scaled.2
  if 0 ≤ e - 52 then ⟨(m * pow2 (e - 52).toNat : Nat), 1⟩ else ⟨(m : Int), pow2 (52 - e).toNat⟩

/-- Round an exact value to the nearest IEEE-754 double. -/
def floatRound (q : PyNum) : PyNum :=
  if q.num = 0 then ⟨0, 1⟩
  else if 0 < q.num then floatRoundPos q.num.toNat q.den
  else
    let r := floatRoundPos (-q.num).toNat q.den
    ⟨-r.num, r.den⟩

/-- Digit run to a natural number. -/
def digitsToNat (l : List Char) : Nat :=
  l.foldl (fun a c => a * 10 + (c.toNat - 48)) 0

def allDigits (l : List Char) : Bool := l.all (fun c => c.isDigit)

/-- Numeric-literal grammar shared by Python `Decimal(str)` and `float(str)`:
optional sign, integer and/or fractional digit runs, optional exponent.
Special values (`NaN`, `Infinity`) and embedded whitespace or underscores
are outside the payloads modelled here and yield `none`. -/
def parseNumLit (s : String) : Option PyNum :=
  let cs0 := s.data
  let sgn : Int := match cs0 with
    | '-' :: _ => -1
    | _ => 1
  let cs : List Char := match cs0 with
    | '+' :: rest => rest
    | '-' :: rest => rest
    | rest => rest
  let mantCs := (cs.span (fun c => c ≠ 'e' && c ≠ 'E')).1
  let restCs := (cs.span (fun c => c ≠ 'e' && c ≠ 'E')).2
  let (ip, dotFrac) := mantCs.span (fun c => c ≠ '.')
  let fp : Option (List Char) :=
    match dotFrac with
    | [] => some []
    | '.' :: rest => if rest.all (fun c => c ≠ '.') then some rest else none
    | _ => none
  let expv : Option Int :=
    match restCs with
    | [] => some 0
    | _ :: ed =>
      match ed with
      | '+' :: ds => if allDigits ds && !ds.isEmpty then some (digitsToNat ds) else none
      | '-' :: ds => if allDigits ds && !ds.isEmpty then some (-(digitsToNat ds : Int)) else none
      | ds => if allDigits ds && !ds.isEmpty then some (digitsToNat ds) else none
  match fp, expv with
  | some f, some e =>
    if allDigits ip && allDigits f && !(ip.isEmpty && f.isEmpty) then
      let m : Int := sgn * (digitsToNat (ip ++ f) : Int)
      if 0 ≤ e then some ⟨m * (pow10 e.toNat : Nat), pow10 f.length⟩
      else some ⟨m, pow10 f.length * pow10 (-e).toNat⟩
    else none
  | _, _ => none

/-- Python truthiness of a value (`if x:`): zero numbers, empty strings,
empty lists and empty dicts are falsy, as is `None`. -/
def jsonTruthy : Json → Bool
  | .null => false
  | .bool b => b
  | .intNum n => n != 0
  | .floatNum q => q.num != 0
  | .str s => !s.isEmpty
  | .arr l => !l.isEmpty
  | .obj fs => !fs.isEmpty

/-- The numeric value of a Python scalar, if it is one (`bool` is a numeric
type in Python). -/
def pyNumVal : Json → Option PyNum
  | .bool b => some ⟨if b then 1 else 0, 1⟩
  | .intNum n => some ⟨n, 1⟩
  | .floatNum q => some q
  | _ => none

/-- Python `==` restricted to the hashable scalars that can appear as `dict`
keys in this code base: numbers compare across types by value, strings and
`None` compare structurally, everything else is unequal. -/
def pyKeyEq (a b : Json) : Bool :=
  match pyNumVal a, pyNumVal b with
  | some x, some y => x.eqB y
  | some _, none => false
  | none, some _ => false
  | none, none =>
    match a, b with
    | .null, .null => true
    | .str s, .str t => s == t
    | _, _ => false

instance : BEq Json := ⟨pyKeyEq⟩

/-- Whether a value may be used as a `dict` key (`list` and `dict` raise
`TypeError: unhashable type`). -/
def jsonHashable : Json → Bool
  | .arr _ => false
  | .obj _ => false
  | _ => true

/-- Python exceptions raised (or raisable) by the embedded code.
`noPositions`, `invalidSolanaAddress` and `invalidTokens` model the classes
of the repository's `custom_exceptions` module (not under `src/`; their
constructor arguments are modelled from the raise sites).  The rest are the
built-in exceptions the embedded operations can raise. -/
inductive TokArg where
  | noArg : TokArg
  | msg (s : String) : TokArg
  | codeMsg (code : Int) (m : String) : TokArg
  deriving DecidableEq, Repr

inductive PyRaise where
  | noPositions (msg : String)
  | invalidSolanaAddress (addr : String)
  | invalidTokens (arg : TokArg)
  | valueError
  | typeError
  | invalidOperation
  | attributeError
  | keyError
  | unboundLocal
  deriving DecidableEq, Repr

deriving instance DecidableEq for Except

/-- Python `str(e)` for the exceptions stored in bulk error markers
(`str` of a one-argument exception is the argument; of a zero-argument
exception the empty string). -/
def exnStr : PyRaise → String
  | .noPositions m => m
  | .invalidSolanaAddress a => a
  | .invalidTokens .noArg => ""
  | .invalidTokens (.msg s) => s
  | _ => ""

/-- Which exceptions an `except (ValueError, TypeError)` clause catches.
`decimal.InvalidOperation` derives from `ArithmeticError`, not `ValueError`,
so it is not caught; neither are `AttributeError`, `KeyError` or
`UnboundLocalError`. -/
def caughtVT : PyRaise → Bool
  | .valueError => true
  | .typeError => true
  | _ => false

/-- Ordered-dict lookup (`d.get(k)` / `k in d` share it). -/
def dictGet {K V : Type} [BEq K] : List (K × V) → K → Option V
  | [], _ => none
  | (k', v) :: rest, k => if k' == k then some v else dictGet rest k

/-- Ordered-dict store `d[k] = v`: updates in place, else appends. -/
def dictSet {K V : Type} [BEq K] : List (K × V) → K → V → List (K × V)
  | [], k, v => [(k, v)]
  | (k', v') :: rest, k, v =>
    if k' == k then (k, v) :: rest else (k', v') :: dictSet rest k v

/-- Ordered-dict `del d[k]`: `none` when the key is absent (`KeyError`). -/
def dictDel {K V : Type} [BEq K] : List (K × V) → K → Option (List (K × V))
  | [], _ => none
  | (k', v) :: rest, k =>
    if k' == k then some rest
    else (dictDel rest k).map (fun r => (k', v) :: r)

def dictContains {K V : Type} [BEq K] (d : List (K × V)) (k : K) : Bool :=
  (dictGet d k).isSome

/-- Python `x.get(k, dflt)`: only `dict` has `.get`; any other receiver
raises `AttributeError`. -/
def pyGetAttr (j : Json) (k : String) (dflt : Json) : Except PyRaise Json :=
  match j with
  | .obj fs => .ok ((dictGet fs k).getD dflt)
  | _ => .error .attributeError

/-- Python subscript `x[k]` with a string key: `KeyError` when a `dict`
lacks the key, `TypeError` on every non-`dict` receiver. -/
def pySub (j : Json) (k : String) : Except PyRaise Json :=
  match j with
  | .obj fs =>
    match dictGet fs k with
    | some v => .ok v
    | none => .error .keyError
  | _ => .error .typeError

/-- Python `Decimal(x)`: exact for `int`, `float` and `bool`; numeric
strings parse exactly, other strings raise `decimal.InvalidOperation`;
`None`, `list` and `dict` raise `TypeError`. -/
def pyDecimal : Json → Except PyRaise PyNum
  | .intNum n => .ok ⟨n, 1⟩
  | .floatNum q => .ok q
  | .bool b => .ok ⟨if b then 1 else 0, 1⟩
  | .str s =>
    match parseNumLit s with
    | some q => .ok q
    | none => .error .invalidOperation
  | .null => .error .typeError
  | .arr _ => .error .typeError
  | .obj _ => .error .typeError

/-- Python `float(x)`: rounds an `int` (or a numeric string, which raises
`ValueError` when malformed) to the nearest double; a `float` is already a
double; `None`, `list` and `dict` raise `TypeError`. -/
def pyFloat : Json → Except PyRaise PyNum
  | .intNum n => .ok (floatRound ⟨n, 1⟩)
  | .floatNum q => .ok q
  | .bool b => .ok ⟨if b then 1 else 0, 1⟩
  | .str s =>
    match parseNumLit s with
    | some q => .ok (floatRound q)
    | none => .error .valueError
  | .null => .error .typeError
  | .arr _ => .error .typeError
  | .obj _ => .error .typeError

/-- Python `int(x)`: truncation toward zero for numbers, digit strings
parse, other strings raise `ValueError`, non-numeric non-string values
raise `TypeError`. -/
def pyInt : Json → Except PyRaise Int
  | .intNum n => .ok n
  | .floatNum q => .ok (q.num / (q.den : Int))
  | .bool b => .ok (if b then 1 else 0)
  | .str s =>
    let cs := s.data
    let (sgn, ds) : Int × List Char :=
      match cs with
      | '-' :: rest => (-1, rest)
      | '+' :: rest => (1, rest)
      | rest => (1, rest)
    if allDigits ds && !ds.isEmpty then .ok (sgn * (digitsToNat ds : Int))
    else .error .valueError
  | .null => .error .typeError
  | .arr _ => .error .typeError
  | .obj _ => .error .typeError

/-- Python iteration `for x in j`: lists yield elements, strings yield
one-character strings, dicts yield their keys; numbers and `None` raise
`TypeError`. -/
def pyIterElems : Json → Except PyRaise (List Json)
  | .arr l => .ok l
  | .str s => .ok (s.data.map (fun c => Json.str (String.mk [c])))
  | .obj fs => .ok (fs.map (fun kv => Json.str kv.1))
  | _ => .error .typeError

def chHeadMatch : List Char → List Char → Bool
  | [], _ => true
  | _ :: _, [] => false
  | a :: as, b :: bs => a == b && chHeadMatch as bs

def chSub : List Char → List Char → Bool
  | n, [] => chHeadMatch n []
  | n, h :: t => chHeadMatch n (h :: t) || chSub n t

/-- Python membership `k in j` for a string `k`: key test on dicts, element
equality (`==`) on lists, substring test on strings; `TypeError` otherwise. -/
def pyContains (k : String) (j : Json) : Except PyRaise Bool :=
  match j with
  | .obj fs => .ok (dictContains fs k)
  | .arr l => .ok (l.any (fun e => pyKeyEq e (Json.str k)))
  | .str s => .ok (chSub k.data s.data)
  | _ => .error .typeError

/-- Base58 digit value (Bitcoin/Solana alphabet), `none` for characters
outside the alphabet. -/
def base58Val (c : Char) : Option Nat :=
  let alphabet := "123456789ABCDEFGHJKLMNPQRSTUVWXYZabcdefghijkmnopqrstuvwxyz".data
  let rec go : List Char → Nat → Option Nat
    | [], _ => none
    | a :: rest, i => if a == c then some i else go rest (i + 1)
  go alphabet 0

/-- Number of bytes in the big-endian representation of `n` (`0` for `0`). -/
def natBytes (n : Nat) : Nat := if n = 0 then 0 else natLog2 n / 8 + 1

/-- Modelled from the spec: `is_solana_address` delegates to
`solders.Pubkey.from_string` (an external dependency; likewise the
`utils.helpers` copy imported by the DexScreener client is not under
`src/`).  Per the spec's Address Validator contract, a valid address is a
base58 string decoding to exactly 32 bytes (each leading `'1'` encodes one
leading zero byte); any parse failure, including the empty string, yields
`false`. -/
def is_solana_address (s : String) : Bool :=
  let cs := s.data
  cs.all (fun c => (base58Val c).isSome) &&
    (let ones := (cs.takeWhile (fun c => c == '1')).length
     let v := cs.foldl (fun a c => a * 58 + ((base58Val c).getD 0)) 0
     ones + natBytes v == 32)

/-- An HTTP response: status code and decoded JSON body (`response.json()`).
The transport itself (`requests.get`) is an external collaborator and is
passed to each operation as a function from URL to response. -/
structure HttpResp where
  status : Int
  body : Json

/-- BirdEye `PriceInfo` named tuple (`birdeye.py` lines 10-12). -/
structure PriceInfo where
  price : PyNum
  liquidity : PyNum
  deriving DecidableEq, Repr

/-- BirdEye token overview record: `fetch_token_overview` builds a dict with
exactly these six keys (`birdeye.py` lines 123-130); `symbol` holds the raw
payload value. -/
structure TokenOverviewB where
  price : PyNum
  symbol : Json
  decimals : Int
  lastTradeUnixTime : Int
  liquidity : PyNum
  supply : PyNum

/-- URL built by `BirdEyeClient.fetch_prices` (`Config.BASE_URL` comes from
the `config` module, not under `src/`, and is passed as a parameter). -/
def birdeyeMultiUrl (baseUrl : String) (addrs : List String) : String :=
  baseUrl ++ "/defi/multi_price?list_address=" ++ String.intercalate "," addrs

def birdeyeOverviewUrl (address : String) : String :=
  "https://public-api.birdeye.so/defi/token_overview?address=" ++ address

/-- Per-token body of the `fetch_prices` loop (`birdeye.py` lines 80-91):
`data['data'].get(token)`; a truthy entry must contain numeric `value` and
`priceChange24h` fields (`KeyError` otherwise — direct subscripts), a falsy
or missing entry yields the zero `PriceInfo`. -/
def birdeye_token_price (data : Json) (token : String) : Except PyRaise PriceInfo :=
  match pySub data "data" with
  | .error e => .error e
  | .ok d =>
    match pyGetAttr d token Json.null with
    | .error e => .error e
    | .ok token_data =>
      if jsonTruthy token_data then
        match pySub token_data "value" with
        | .error e => .error e
        | .ok v =>
          match pyDecimal v with
          | .error e => .error e
          | .ok price =>
            match pySub token_data "priceChange24h" with
            | .error e => .error e
            | .ok c =>
              match pyDecimal c with
              | .error e => .error e
              | .ok liq => .ok ⟨price, liq⟩
      else .ok ⟨pyZero, pyZero⟩

/-- The `prices` dict built by the `fetch_prices` loop. -/
def birdeye_prices_loop (data : Json) :
    List String → List (String × PriceInfo) → Except PyRaise (List (String × PriceInfo))
  | [], prices => .ok prices
  | t :: rest, prices =>
    match birdeye_token_price data t with
    | .error e => .error e
    | .ok pi => birdeye_prices_loop data rest (dictSet prices t pi)

def birdeye_build_prices (addrs : List String) (data : Json) :
    Except PyRaise (List (String × PriceInfo)) :=
  birdeye_prices_loop data addrs []

/-- `BirdEyeClient.fetch_prices` (`birdeye.py` lines 52-92).  Returns the
list of URLs requested together with the outcome.  The computed `prices`
mapping is only printed by the source, never returned — the function body
ends at `print(prices)` — so a successful call yields `Unit` (Python
`None`). -/
def birdeye_fetch_prices (http : String → HttpResp) (baseUrl : String)
    (token_addresses : List String) : List String × Except PyRaise Unit :=
  if token_addresses.isEmpty then ([], .error (.noPositions "No tokens provided"))
  else
    let url := birdeyeMultiUrl baseUrl token_addresses
    let resp := http url
    if resp.status ≠ 200 then
      ([url], .error (.invalidTokens (.msg "API call was unsuccessful")))
    else
      match birdeye_build_prices token_addresses resp.body with
      | .error e => ([url], .error e)
      | .ok _ => ([url], .ok ())

/-- Overview record construction (`birdeye.py` lines 121-130):
`data.get('data')` then keyword-argument defaults, in the source's
evaluation order. -/
def birdeye_build_overview (data : Json) : Except PyRaise TokenOverviewB :=
  match pyGetAttr data "data" Json.null with
  | .error e => .error e
  | .ok token =>
    match pyGetAttr token "price" (Json.intNum 0) with
    | .error e => .error e
    | .ok pj =>
      match pyDecimal pj with
      | .error e => .error e
      | .ok price =>
        match pyGetAttr token "symbol" (Json.str "") with
        | .error e => .error e
        | .ok symbol =>
          match pyGetAttr token "decimals" (Json.intNum 0) with
          | .error e => .error e
          | .ok dj =>
            match pyInt dj with
            | .error e => .error e
            | .ok decimals =>
              match pyGetAttr token "lastTradeUnixTime" (Json.intNum 0) with
              | .error e => .error e
              | .ok tj =>
                match pyInt tj with
                | .error e => .error e
                | .ok lastTrade =>
                  match pyGetAttr token "liquidity" (Json.intNum 0) with
                  | .error e => .error e
                  | .ok lj =>
                    match pyDecimal lj with
                    | .error e => .error e
                    | .ok liquidity =>
                      match pyGetAttr token "supply" (Json.intNum 0) with
                      | .error e => .error e
                      | .ok sj =>
                        match pyDecimal sj with
                        | .error e => .error e
                        | .ok supply =>
                          .ok ⟨price, symbol, decimals, lastTrade, liquidity, supply⟩

/-- `BirdEyeClient.fetch_token_overview` (`birdeye.py` lines 93-130):
validate the address, then GET; a 401 raises `InvalidTokens` carrying
`{"CODE": 401, "message": "Token is not Authorized"}`, any other non-200
raises the generic `InvalidTokens("API call was unsuccessful")`. -/
def birdeye_fetch_token_overview (http : String → HttpResp) (address : String) :
    List String × Except PyRaise TokenOverviewB :=
  if is_solana_address address = false then
    ([], .error (.invalidSolanaAddress ("Invalid Solana address: " ++ address)))
  else
    let url := birdeyeOverviewUrl address
    let resp := http url
    if resp.status = 401 then
      ([url], .error (.invalidTokens (.codeMsg 401 "Token is not Authorized")))
    else if resp.status ≠ 200 then
      ([url], .error (.invalidTokens (.msg "API call was unsuccessful")))
    else ([url], birdeye_build_overview resp.body)

/-- Modelled from the spec: `clients.common.PriceInfo` (not under `src/`),
constructed in `dexscreener.py` as `PriceInfo(value=price, liquidity=liquidity)`. -/
structure PriceInfoD where
  value : PyNum
  liquidity : PyNum
  deriving DecidableEq, Repr

/-- Modelled from the spec: `clients.common.TokenOverview` (not under
`src/`), constructed in `dexscreener.py` with `price`, `symbol`,
`liquidity` from the pair and `"N/A"` sentinels for `decimals`,
`lastTradeUnixTime` and `supply`. -/
structure TokenOverviewD where
  price : PyNum
  symbol : Json
  liquidity : PyNum
  decimals : String
  lastTradeUnixTime : String
  supply : String

/-- Modelled from the spec: `constants.SOL_MINT` (not under `src/`), the
canonical wrapped-SOL mint used as the quote denominator. -/
def SOL_MINT : String := "So11111111111111111111111111111111111111112"

def dexUrl (address : String) : String :=
  "https://api.dexscreener.com/latest/dex/tokens/" ++ address

/-- The try-body of `DexScreenerClient._validate_token_address`
(`dexscreener.py` lines 36-41): empty address raises `NoPositionsError()`,
non-base58 raises `InvalidSolanaAddress(token_address)`. -/
def dex_validate_token_address_inner (token_address : String) : Except PyRaise Unit :=
  if token_address.data.isEmpty then .error (.noPositions "")
  else if is_solana_address token_address = false then
    .error (.invalidSolanaAddress token_address)
  else .ok ()

/-- `DexScreenerClient._validate_token_address` (`dexscreener.py` lines
21-44): the surrounding `except Exception` catches the inner raises —
including the `NoPositionsError` for an empty address — and re-raises
`InvalidSolanaAddress(token_address)`. -/
def dex_validate_token_address (token_address : String) : Except PyRaise Unit :=
  match dex_validate_token_address_inner token_address with
  | .ok _ => .ok ()
  | .error _ => .error (.invalidSolanaAddress token_address)

/-- The per-address loop of `_validate_token_addresses`. -/
def dex_validate_many : List String → Except PyRaise Unit
  | [] => .ok ()
  | a :: rest =>
    match dex_validate_token_address a with
    | .error e => .error e
    | .ok _ => dex_validate_many rest

/-- `DexScreenerClient._validate_token_addresses` (`dexscreener.py` lines
47-65). -/
def dex_validate_token_addresses (token_addresses : List String) : Except PyRaise Unit :=
  if token_addresses.isEmpty then .error (.noPositions "Token addresses list is empty")
  else dex_validate_many token_addresses

/-- `DexScreenerClient._call_api` (`dexscreener.py` lines 84-105): validate,
GET, `_validate_response` (raising `InvalidTokens()` on non-200), return the
JSON body.  First component: the URLs actually requested. -/
def dex_call_api (http : String → HttpResp) (token_address : String) :
    List String × Except PyRaise Json :=
  match dex_validate_token_address token_address with
  | .error e => ([], .error e)
  | .ok _ =>
    let url := dexUrl token_address
    let resp := http url
    if resp.status ≠ 200 then ([url], .error (.invalidTokens .noArg))
    else ([url], .ok resp.body)

/-- One iteration of the `_call_api_bulk` loop (`dexscreener.py` lines
126-135): a raised `InvalidSolanaAddress` or `InvalidTokens` is caught and
replaced by the per-address marker `{"error": str(e)}`. -/
def dexBulkStep (http : String → HttpResp)
    (st : List String × List (String × Json)) (address : String) :
    List String × List (String × Json) :=
  match dex_validate_token_address address with
  | .error e => (st.1, dictSet st.2 address (Json.obj [("error", Json.str (exnStr e))]))
  | .ok _ =>
    let url := dexUrl address
    let resp := http url
    if resp.status ≠ 200 then
      (st.1 ++ [url],
       dictSet st.2 address (Json.obj [("error", Json.str (exnStr (.invalidTokens .noArg)))]))
    else (st.1 ++ [url], dictSet st.2 address resp.body)

/-- `DexScreenerClient._call_api_bulk` (`dexscreener.py` lines 107-137). -/
def dex_call_api_bulk (http : String → HttpResp) (token_addresses : List String) :
    List String × Except PyRaise (List (String × Json)) :=
  if token_addresses.isEmpty then
    ([], .error (.noPositions "Token addresses list is empty"))
  else
    let st := token_addresses.foldl (dexBulkStep http) ([], [])
    (st.1, .ok st.2)

/-- One venue's dict of `PriceInfo` keyed by base-token symbol. -/
abbrev VenueMap := List (Json × List (Json × PriceInfoD))

/-- The try-body of the inner pair loop of `fetch_prices_dex`
(`dexscreener.py` lines 162-168), executed against the current
`prices[address]` dict `m`.  Returns the value bound to `dex_id` by this
iteration (`none` when the raise happened before the `dex_id = ...` line)
together with either the updated dict or the exception paired with the
dict state at the moment of the raise. -/
def dexPairTry (m : VenueMap) (pair : Json) :
    Option Json × Except (PyRaise × VenueMap) VenueMap :=
  match pyGetAttr pair "priceUsd" (Json.floatNum ⟨0, 1⟩) with
  | .error e => (none, .error (e, m))
  | .ok priceJ =>
    match pyDecimal priceJ with
    | .error e => (none, .error (e, m))
    | .ok price =>
      match pyGetAttr pair "liquidity" (Json.obj []) with
      | .error e => (none, .error (e, m))
      | .ok liqField =>
        match pyGetAttr liqField "usd" (Json.floatNum ⟨0, 1⟩) with
        | .error e => (none, .error (e, m))
        | .ok liqJ =>
          match pyDecimal liqJ with
          | .error e => (none, .error (e, m))
          | .ok liquidity =>
            match pyGetAttr pair "dexId" Json.null with
            | .error e => (none, .error (e, m))
            | .ok dexIdJ =>
              if jsonHashable dexIdJ then
                let m1 := dictSet m dexIdJ []
                match pyGetAttr pair "baseToken" (Json.obj []) with
                | .error e => (some dexIdJ, .error (e, m1))
                | .ok bt =>
                  match pyGetAttr bt "symbol" Json.null with
                  | .error e => (some dexIdJ, .error (e, m1))
                  | .ok symJ =>
                    if jsonHashable symJ then
                      (some dexIdJ, .ok (dictSet m1 dexIdJ [(symJ, ⟨price, liquidity⟩)]))
                    else (some dexIdJ, .error (.typeError, m1))
              else (some dexIdJ, .error (.typeError, m))

/-- One pair iteration including the `except (ValueError, TypeError)`
handler (`dexscreener.py` lines 169-171).  The handler reads `dex_id` as
currently bound — the previous iteration's binding when this iteration
raised before binding it, and `UnboundLocalError` when no iteration has
bound it yet — so `del prices[address][dex_id]` removes a stale venue
entry (`KeyError` when already deleted).  Exceptions the clause does not
catch propagate. -/
def dexPairStep (st : VenueMap × Option Json) (pair : Json) :
    Except PyRaise (VenueMap × Option Json) :=
  match dexPairTry st.1 pair with
  | (bnd, .ok m2) => .ok (m2, bnd.orElse (fun _ => st.2))
  | (bnd, .error (e, m2)) =>
    let var := bnd.orElse (fun _ => st.2)
    if caughtVT e then
      match var with
      | none => .error .unboundLocal
      | some key =>
        if jsonTruthy key then
          if jsonHashable key then
            match dictDel m2 key with
            | some m3 => .ok (m3, var)
            | none => .error .keyError
          else .error .typeError
        else .ok (m2, var)
    else .error e

def dexPairsLoop : VenueMap × Option Json → List Json → Except PyRaise VenueMap
  | st, [] => .ok st.1
  | st, p :: rest =>
    match dexPairStep st p with
    | .error e => .error e
    | .ok st2 => dexPairsLoop st2 rest

/-- One iteration of the outer per-address loop of `fetch_prices_dex`
(`dexscreener.py` lines 156-176), including its
`except (ValueError, TypeError)` handler, which deletes the address's slot
when present (`del prices[address]`) and otherwise leaves `prices`
untouched; exceptions it does not catch propagate. -/
def dexAddrStep (prices : List (String × VenueMap)) (address : String)
    (token_data : Json) : Except PyRaise (List (String × VenueMap)) :=
  let handle : PyRaise → List (String × VenueMap) →
      Except PyRaise (List (String × VenueMap)) := fun e d =>
    if caughtVT e then
      .ok (if dictContains d address then (dictDel d address).getD d else d)
    else .error e
  match pyContains "pairs" token_data with
  | .error e => handle e prices
  | .ok false => .ok prices
  | .ok true =>
    let prices1 := dictSet prices address []
    match pySub token_data "pairs" with
    | .error e => handle e prices1
    | .ok pairsJ =>
      match pyIterElems pairsJ with
      | .error e => handle e prices1
      | .ok elems =>
        match dexPairsLoop ([], none) elems with
        | .error e => handle e prices1
        | .ok venue => .ok (dictSet prices1 address venue)

/-- The normalization loop of `fetch_prices_dex` over
`responses.items()`. -/
def dex_normalize : List (String × Json) → List (String × VenueMap) →
    Except PyRaise (List (String × VenueMap))
  | [], acc => .ok acc
  | (addr, td) :: rest, acc =>
    match dexAddrStep acc addr td with
    | .error e => .error e
    | .ok acc2 => dex_normalize rest acc2

/-- `DexScreenerClient.fetch_prices_dex` (`dexscreener.py` lines 139-178):
validate every address up front, call the bulk API, then normalize. -/
def dex_fetch_prices_dex (http : String → HttpResp) (token_addresses : List String) :
    List String × Except PyRaise (List (String × VenueMap)) :=
  match dex_validate_token_addresses token_addresses with
  | .error e => ([], .error e)
  | .ok _ =>
    let st := dex_call_api_bulk http token_addresses
    match st.2 with
    | .error e => (st.1, .error e)
    | .ok responses => (st.1, dex_normalize responses [])

abbrev OVenueMap := List (Json × List (Json × TokenOverviewD))

/-- Result of `DexScreenerClient.fetch_token_overview`: either the ad hoc
string literal `"Pairs Not Found"` returned when the payload's `pairs` are
missing or falsy (`dexscreener.py` line 216) — a Python `str`, a value of a
different type from every populated overview `dict` — or the nested
per-address, per-venue, per-symbol table. -/
inductive OverviewResult where
  | pairsNotFound : OverviewResult
  | table (d : List (String × OVenueMap)) : OverviewResult

/-- The try-body of the overview pair loop (`dexscreener.py` lines 200-211);
field order as in the source: `priceUsd`, then `baseToken.symbol`, then
`liquidity.usd`, then the `"N/A"` sentinels and `dexId`. -/
def dexOverviewPairTry (m : OVenueMap) (pair : Json) :
    Option Json × Except (PyRaise × OVenueMap) OVenueMap :=
  match pyGetAttr pair "priceUsd" (Json.floatNum ⟨0, 1⟩) with
  | .error e => (none, .error (e, m))
  | .ok priceJ =>
    match pyDecimal priceJ with
    | .error e => (none, .error (e, m))
    | .ok price =>
      match pyGetAttr pair "baseToken" (Json.obj []) with
      | .error e => (none, .error (e, m))
      | .ok bt =>
        match pyGetAttr bt "symbol" Json.null with
        | .error e => (none, .error (e, m))
        | .ok symJ =>
          match pyGetAttr pair "liquidity" (Json.obj []) with
          | .error e => (none, .error (e, m))
          | .ok liqField =>
            match pyGetAttr liqField "usd" (Json.floatNum ⟨0, 1⟩) with
            | .error e => (none, .error (e, m))
            | .ok liqJ =>
              match pyDecimal liqJ with
              | .error e => (none, .error (e, m))
              | .ok liquidity =>
                match pyGetAttr pair "dexId" Json.null with
                | .error e => (none, .error (e, m))
                | .ok dexIdJ =>
                  if jsonHashable dexIdJ then
                    let m1 := dictSet m dexIdJ []
                    if jsonHashable symJ then
                      (some dexIdJ,
                       .ok (dictSet m1 dexIdJ
                         [(symJ, ⟨price, symJ, liquidity, "N/A", "N/A", "N/A"⟩)]))
                    else (some dexIdJ, .error (.typeError, m1))
                  else (some dexIdJ, .error (.typeError, m))

/-- One overview pair iteration with its `except (ValueError, TypeError)`
handler (`dexscreener.py` lines 212-214) — same stale-`dex_id` semantics as
the price loop. -/
def dexOverviewPairStep (st : OVenueMap × Option Json) (pair : Json) :
    Except PyRaise (OVenueMap × Option Json) :=
  match dexOverviewPairTry st.1 pair with
  | (bnd, .ok m2) => .ok (m2, bnd.orElse (fun _ => st.2))
  | (bnd, .error (e, m2)) =>
    let var := bnd.orElse (fun _ => st.2)
    if caughtVT e then
      match var with
      | none => .error .unboundLocal
      | some key =>
        if jsonTruthy key then
          if jsonHashable key then
            match dictDel m2 key with
            | some m3 => .ok (m3, var)
            | none => .error .keyError
          else .error .typeError
        else .ok (m2, var)
    else .error e

def dexOverviewPairsLoop : OVenueMap × Option Json → List Json → Except PyRaise OVenueMap
  | st, [] => .ok st.1
  | st, p :: rest =>
    match dexOverviewPairStep st p with
    | .error e => .error e
    | .ok st2 => dexOverviewPairsLoop st2 rest

/-- Overview construction (`dexscreener.py` lines 194-218):
`responses.get('pairs')`; a falsy result (absent key, empty list) returns
the `"Pairs Not Found"` string, otherwise the venue table for the address
is built (there is no outer `try` here, so uncaught loop exceptions
propagate). -/
def dex_build_overview (address : String) (responses : Json) :
    Except PyRaise OverviewResult :=
  match pyGetAttr responses "pairs" Json.null with
  | .error e => .error e
  | .ok pairs =>
    if jsonTruthy pairs then
      match pyIterElems pairs with
      | .error e => .error e
      | .ok elems =>
        match dexOverviewPairsLoop ([], none) elems with
        | .error e => .error e
        | .ok venue => .ok (.table [(address, venue)])
    else .ok .pairsNotFound

/-- `DexScreenerClient.fetch_token_overview` (`dexscreener.py` lines
181-218): validate, `_call_api` (which validates again), then build. -/
def dex_fetch_token_overview (http : String → HttpResp) (address : String) :
    List String × Except PyRaise OverviewResult :=
  match dex_validate_token_address address with
  | .error e => ([], .error e)
  | .ok _ =>
    let ca := dex_call_api http address
    match ca.2 with
    | .error e => (ca.1, .error e)
    | .ok responses => (ca.1, dex_build_overview address responses)

/-- Per-entry filter and key of `find_largest_pool_with_sol`
(`dexscreener.py` lines 225-228): the entry passes when
`baseToken.address == address` and (evaluated only then, by `and`
short-circuit) `entry["quoteToken"]["address"] == SOL_MINT`; its key is
`float(entry.get("liquidity", {}).get("usd", 0))` — the float-converted
liquidity. -/
def pairCheck (address : String) (entry : Json) : Except PyRaise (Option PyNum) :=
  match pyGetAttr entry "baseToken" (Json.obj []) with
  | .error e => .error e
  | .ok bt =>
    match pyGetAttr bt "address" Json.null with
    | .error e => .error e
    | .ok ba =>
      if pyKeyEq ba (Json.str address) then
        match pySub entry "quoteToken" with
        | .error e => .error e
        | .ok qt =>
          match pySub qt "address" with
          | .error e => .error e
          | .ok qa =>
            if pyKeyEq qa (Json.str SOL_MINT) then
              match pyGetAttr entry "liquidity" (Json.obj []) with
              | .error e => .error e
              | .ok lf =>
                match pyGetAttr lf "usd" (Json.intNum 0) with
                | .error e => .error e
                | .ok lj =>
                  match pyFloat lj with
                  | .error e => .error e
                  | .ok q => .ok (some q)
            else .ok none
      else .ok none

/-- The accumulator loop of `find_largest_pool_with_sol` (`dexscreener.py`
lines 222-231): `max_entry = {}`, `max_liquidity_usd = -1`, strict `>`
update. -/
def find_loop (address : String) : List Json → Json → PyNum → Except PyRaise Json
  | [], best, _ => .ok best
  | entry :: rest, best, bestLiq =>
    match pairCheck address entry with
    | .error e => .error e
    | .ok none => find_loop address rest best bestLiq
    | .ok (some liq) =>
      if bestLiq.ltB liq then find_loop address rest entry liq
      else find_loop address rest best bestLiq

/-- `DexScreenerClient.find_largest_pool_with_sol` (`dexscreener.py` lines
220-232).  Returns the selected entry, or the initial empty dict `{}` when
no entry's converted liquidity ever exceeded `-1`. -/
def find_largest_pool_with_sol (token_pairs : List Json) (address : String) :
    Except PyRaise Json :=
  find_loop address token_pairs (Json.obj []) pyNegOne

/-- The filtered sub-list of pairs passing `find_largest_pool_with_sol`'s
base/quote test, each with its float-converted liquidity key. -/
def matchedLiqsFloat (address : String) : List Json → Except PyRaise (List (Json × PyNum))
  | [] => .ok []
  | p :: rest =>
    match pairCheck address p with
    | .error e => .error e
    | .ok none => matchedLiqsFloat address rest
    | .ok (some k) =>
      match matchedLiqsFloat address rest with
      | .error e => .error e
      | .ok ms => .ok ((p, k) :: ms)

/-- Modelled from the spec: the first-occurring element whose key is
maximal among those strictly exceeding the threshold (ties broken by first
occurrence in input order), `none` when no key exceeds the threshold. -/
def firstMaxAbove (thr : PyNum) : List (Json × PyNum) → Option (Json × PyNum)
  | [] => none
  | (e, k) :: rest =>
    if thr.ltB k then some ((firstMaxAbove k rest).getD (e, k))
    else firstMaxAbove thr rest

/-- The filtered sub-list of matching pairs with their exact (unconverted)
`liquidity.usd` values, read as exact decimals. -/
def matchedLiqsExact (address : String) : List Json → Except PyRaise (List (Json × PyNum))
  | [] => .ok []
  | p :: rest =>
    match pairCheck address p with
    | .error e => .error e
    | .ok none => matchedLiqsExact address rest
    | .ok (some _) =>
      match (match pyGetAttr p "liquidity" (Json.obj []) with
             | .error e => Except.error e
             | .ok lf =>
               match pyGetAttr lf "usd" (Json.intNum 0) with
               | .error e => Except.error e
               | .ok lj => pyDecimal lj) with
      | .error e => .error e
      | .ok k =>
        match matchedLiqsExact address rest with
        | .error e => .error e
        | .ok ms => .ok ((p, k) :: ms)

/-- Modelled from the spec: the first-occurring element of maximal key
(exact-value comparison, ties broken by first occurrence). -/
def firstMaxBy : List (Json × PyNum) → Option (Json × PyNum)
  | [] => none
  | (e, k) :: rest =>
    match firstMaxBy rest with
    | none => some (e, k)
    | some y => if k.ltB y.2 then some y else some (e, k)

section DictLemmas

variable {K V : Type} [BEq K] [LawfulBEq K]

theorem dictGet_dictSet_self (d : List (K × V)) (k : K) (v : V) :
    dictGet (dictSet d k v) k = some v := by
  induction d with
  | nil => simp [dictSet, dictGet]
  | cons hd tl ih =>
    obtain ⟨k', v'⟩ := hd
    by_cases h : k' == k
    · simp [dictSet, dictGet, h]
    · simp only [dictSet, dictGet, h]
      simpa [h] using ih

theorem dictGet_dictSet_ne (d : List (K × V)) {k k' : K} (v : V) (hne : k ≠ k') :
    dictGet (dictSet d k v) k' = dictGet d k' := by
  induction d with
  | nil => simp [dictSet, dictGet, hne]
  | cons hd tl ih =>
    obtain ⟨k0, v0⟩ := hd
    by_cases h : k0 == k
    · have hk0 : k0 = k := by simpa using h
      subst hk0
      simp [dictSet, dictGet, hne]
    · simp only [dictSet, dictGet, h, if_neg]
      by_cases h2 : k0 == k'
      · simp [dictGet, h2]
      · simp [dictGet, h2, ih]

omit [LawfulBEq K] in
theorem length_dictSet_of_get_none (d : List (K × V)) (k : K) (v : V)
    (h : dictGet d k = none) : (dictSet d k v).length = d.length + 1 := by
  induction d with
  | nil => simp [dictSet]
  | cons hd tl ih =>
    obtain ⟨k0, v0⟩ := hd
    by_cases hk : k0 == k
    · simp [dictGet, hk] at h
    · simp only [dictGet, hk, if_neg] at h
      simp only [dictSet, hk, if_neg]
      simp [ih (by simpa [hk] using h)]

theorem foldl_dictSet_get_of_not_mem (f : K → V) (addrs : List K) (d : List (K × V))
    {a : K} (ha : a ∉ addrs) :
    dictGet (addrs.foldl (fun d x => dictSet d x (f x)) d) a = dictGet d a := by
  induction addrs generalizing d with
  | nil => rfl
  | cons x rest ih =>
    have hax : a ≠ x := fun h => ha (h ▸ List.mem_cons_self x rest)
    have har : a ∉ rest := fun h => ha (List.mem_cons_of_mem x h)
    simp only [List.foldl_cons]
    rw [ih _ har, dictGet_dictSet_ne _ _ (Ne.symm hax)]

theorem foldl_dictSet_get_of_mem (f : K → V) (addrs : List K) (d : List (K × V))
    {a : K} (hnd : addrs.Nodup) (ha : a ∈ addrs) :
    dictGet (addrs.foldl (fun d x => dictSet d x (f x)) d) a = some (f a) := by
  induction addrs generalizing d with
  | nil => cases ha
  | cons x rest ih =>
    simp only [List.foldl_cons]
    rcases List.mem_cons.mp ha with h | h
    · subst h
      have hxr : a ∉ rest := (List.nodup_cons.mp hnd).1
      rw [foldl_dictSet_get_of_not_mem _ _ _ hxr, dictGet_dictSet_self]
    · exact ih _ (List.nodup_cons.mp hnd).2 h

theorem foldl_dictSet_length (f : K → V) (addrs : List K) (d : List (K × V))
    (hnd : addrs.Nodup) (hfresh : ∀ a ∈ addrs, dictGet d a = none) :
    (addrs.foldl (fun d x => dictSet d x (f x)) d).length = d.length + addrs.length := by
  induction addrs generalizing d with
  | nil => rfl
  | cons x rest ih =>
    simp only [List.foldl_cons]
    have hx : dictGet d x = none := hfresh x (List.mem_cons_self x rest)
    have hrest : ∀ a ∈ rest, dictGet (dictSet d x (f x)) a = none := by
      intro a ha
      have hax : x ≠ a := by
        rintro rfl
        exact (List.nodup_cons.mp hnd).1 ha
      rw [dictGet_dictSet_ne _ _ hax]
      exact hfresh a (List.mem_cons_of_mem x ha)
    rw [ih _ (List.nodup_cons.mp hnd).2 hrest, length_dictSet_of_get_none _ _ _ hx]
    simp only [List.length_cons]
    omega

end DictLemmas

theorem is_solana_address_of_data_nil {a : String} (h : a.data = []) :
    is_solana_address a = false := by
  simp [is_solana_address, h, natBytes]

theorem dex_validate_error_of_invalid {a : String} (hv : is_solana_address a = false) :
    dex_validate_token_address a = .error (.invalidSolanaAddress a) := by
  unfold dex_validate_token_address dex_validate_token_address_inner
  by_cases he : a.data.isEmpty <;> simp [he, hv]

theorem dex_validate_ok_of_valid {a : String} (hv : is_solana_address a = true) :
    dex_validate_token_address a = .ok () := by
  have he : a.data.isEmpty = false := by
    cases hd : a.data with
    | nil => rw [is_solana_address_of_data_nil hd] at hv; cases hv
    | cons c cs => simp
  unfold dex_validate_token_address dex_validate_token_address_inner
  simp [he, hv]

theorem dex_validate_many_error_of_mem {addrs : List String} {a : String}
    (ha : a ∈ addrs) (hv : is_solana_address a = false) :
    ∃ e, dex_validate_many addrs = .error e := by
  induction addrs with
  | nil => cases ha
  | cons x rest ih =>
    cases hx : dex_validate_token_address x with
    | error e => exact ⟨e, by simp [dex_validate_many, hx]⟩
    | ok u =>
      rcases List.mem_cons.mp ha with h | h
      · subst h
        rw [dex_validate_error_of_invalid hv] at hx
        cases hx
      · obtain ⟨e, he⟩ := ih h
        exact ⟨e, by simpa [dex_validate_many, hx] using he⟩

/-- The per-address value stored by the `_call_api_bulk` loop: an
`{"error": str(e)}` marker for a failed validation or a non-200 status,
otherwise the JSON body. -/
def dexBulkVal (http : String → HttpResp) (address : String) : Json :=
  match dex_validate_token_address address with
  | .error e => Json.obj [("error", Json.str (exnStr e))]
  | .ok _ =>
    if (http (dexUrl address)).status ≠ 200 then
      Json.obj [("error", Json.str (exnStr (PyRaise.invalidTokens .noArg)))]
    else (http (dexUrl address)).body

theorem dexBulkStep_snd (http : String → HttpResp)
    (st : List String × List (String × Json)) (a : String) :
    (dexBulkStep http st a).2 = dictSet st.2 a (dexBulkVal http a) := by
  unfold dexBulkStep dexBulkVal
  cases hv : dex_validate_token_address a with
  | error e => rfl
  | ok u =>
    by_cases hs : (http (dexUrl a)).status ≠ 200 <;> simp [hs]

/-- Whether `_validate_token_address` passes (used to characterize which
URLs the bulk loop requests). -/
def dexValidOk (a : String) : Bool :=
  match dex_validate_token_address a with
  | .ok _ => true
  | .error _ => false

theorem dexBulkStep_fst (http : String → HttpResp)
    (st : List String × List (String × Json)) (a : String) :
    (dexBulkStep http st a).1 =
      st.1 ++ (if dexValidOk a then [dexUrl a] else []) := by
  unfold dexBulkStep dexValidOk
  cases hv : dex_validate_token_address a with
  | error e => simp
  | ok u =>
    by_cases hs : (http (dexUrl a)).status ≠ 200 <;> simp [hs]

theorem dexBulk_foldl_snd (http : String → HttpResp) (addrs : List String)
    (st : List String × List (String × Json)) :
    (addrs.foldl (dexBulkStep http) st).2 =
      addrs.foldl (fun d a => dictSet d a (dexBulkVal http a)) st.2 := by
  induction addrs generalizing st with
  | nil => rfl
  | cons x rest ih =>
    simp only [List.foldl_cons]
    rw [ih, dexBulkStep_snd]

theorem dexBulk_foldl_fst (http : String → HttpResp) (addrs : List String)
    (st : List String × List (String × Json)) :
    (addrs.foldl (dexBulkStep http) st).1 =
      st.1 ++ (addrs.filter dexValidOk).map dexUrl := by
  induction addrs generalizing st with
  | nil => simp
  | cons x rest ih =>
    simp only [List.foldl_cons]
    rw [ih]
    by_cases hx : dexValidOk x
    · rw [dexBulkStep_fst]
      simp [hx, List.filter_cons]
    · rw [dexBulkStep_fst]
      simp [hx, List.filter_cons]

theorem strAppend_data (s t : String) : (s ++ t).data = s.data ++ t.data := by
  cases s
  cases t
  rfl

theorem strAppend_left_cancel {s t u : String} (h : s ++ t = s ++ u) : t = u := by
  have h2 : (s ++ t).data = (s ++ u).data := congrArg String.data h
  rw [strAppend_data, strAppend_data] at h2
  have h3 := List.append_cancel_left h2
  cases t
  cases u
  exact congrArg String.mk h3

theorem dexUrl_inj {a b : String} (h : dexUrl a = dexUrl b) : a = b :=
  strAppend_left_cancel h

/-- The all-zeros system address, base58 `"1"`×32 — a valid Solana address. -/
def addrOnes : String := "11111111111111111111111111111111"

/-- A second valid address, 31 ones followed by `'2'` (one nonzero final
byte). -/
def addrOnes2 : String := "11111111111111111111111111111112"

def badAddr : String := "not-an-address"

/-- A well-formed trading-pair payload entry: venue `ray`, base symbol
`GOOD`, price `"2"`, liquidity 100 USD. -/
def goodPair : Json := Json.obj [("priceUsd", Json.str "2"),
  ("liquidity", Json.obj [("usd", Json.intNum 100)]),
  ("dexId", Json.str "ray"),
  ("baseToken", Json.obj [("symbol", Json.str "GOOD")])]

/-- A pair entry whose `priceUsd` is `null`: `Decimal(None)` raises
`TypeError` inside the per-pair `try`. -/
def badPair : Json := Json.obj [("priceUsd", Json.null),
  ("dexId", Json.str "orca"),
  ("baseToken", Json.obj [("symbol", Json.str "BAD")])]

def httpPairs : String → HttpResp := fun _ => ⟨200, Json.obj [("pairs", Json.arr [goodPair])]⟩

/-- Transport answering 500 for `addrOnes2` and a well-formed 200 payload
for every other URL. -/
def http500For2 : String → HttpResp := fun url =>
  if url == dexUrl addrOnes2 then ⟨500, Json.obj []⟩
  else ⟨200, Json.obj [("pairs", Json.arr [goodPair])]⟩

/-- C2, as stated, is false on two counts at concrete inputs.
First, `fetch_prices_dex` validates every address up front, so a batch of
one valid and one invalid address raises `InvalidSolanaAddress` and aborts
the whole batch — no mapping, no per-token marker, no successful entries.
Second, when every address is valid and exactly one receives a 500, the
returned mapping has N−1 entries: the failing token's marker produced by
`_call_api_bulk` is dropped by the normalization loop (its `{"error": ...}`
payload has no `pairs` key, so no slot is created for it). -/
theorem dex_fetch_prices_dex_aborts_or_drops_failing_slot :
    dex_fetch_prices_dex httpPairs [addrOnes, badAddr] =
      ([], .error (.invalidSolanaAddress badAddr))
    ∧ (dex_fetch_prices_dex http500For2 [addrOnes, addrOnes2]).2 =
      .ok [(addrOnes, [(Json.str "ray", [(Json.str "GOOD", ⟨⟨2, 1⟩, ⟨100, 1⟩⟩)])])] := by
  constructor
  · rfl
  · rfl

/-- C2 amended: the per-token isolation the claim describes is realized one
layer down, in `_call_api_bulk` — for `N` distinct addresses of which
exactly one fails (invalid address or non-200 response) and the rest
succeed, its response dict has `N` entries: one `{"error": str(e)}` marker
for the failing address and the raw payload for each of the other `N−1`.
(`fetch_prices_dex` itself aborts the batch on an invalid address and
omits the failing token's slot from its final mapping, per the
counterexample.) -/
theorem dex_call_api_bulk_isolates_failures (http : String → HttpResp)
    (addrs : List String) (bad : String) (hnd : addrs.Nodup) (hmem : bad ∈ addrs)
    (hbad : dex_validate_token_address bad ≠ .ok () ∨ (http (dexUrl bad)).status ≠ 200)
    (hgood : ∀ a ∈ addrs, a ≠ bad →
      dex_validate_token_address a = .ok () ∧ (http (dexUrl a)).status = 200) :
    ∃ resp, (dex_call_api_bulk http addrs).2 = .ok resp
      ∧ resp.length = addrs.length
      ∧ (∃ s, dictGet resp bad = some (Json.obj [("error", Json.str s)]))
      ∧ ∀ a ∈ addrs, a ≠ bad → dictGet resp a = some (http (dexUrl a)).body := by
  have hne : addrs.isEmpty = false := by
    cases addrs with
    | nil => cases hmem
    | cons x rest => rfl
  refine ⟨addrs.foldl (fun d a => dictSet d a (dexBulkVal http a)) [], ?_, ?_, ?_, ?_⟩
  · unfold dex_call_api_bulk
    rw [hne]
    simp only [Bool.false_eq_true, if_false]
    rw [dexBulk_foldl_snd]
  · rw [foldl_dictSet_length _ _ _ hnd (by intro a _; rfl)]
    simp
  · rw [foldl_dictSet_get_of_mem _ _ _ hnd hmem]
    unfold dexBulkVal
    cases hv : dex_validate_token_address bad with
    | error e => exact ⟨exnStr e, rfl⟩
    | ok u =>
      have hs : (http (dexUrl bad)).status ≠ 200 := by
        rcases hbad with h | h
        · cases u; exact absurd hv h
        · exact h
      exact ⟨exnStr (PyRaise.invalidTokens .noArg), by simp [hs]⟩
  · intro a ha hab
    rw [foldl_dictSet_get_of_mem _ _ _ hnd ha]
    unfold dexBulkVal
    rw [(hgood a ha hab).1]
    simp [(hgood a ha hab).2]

theorem dex_call_api_bulk_isolates_failures_witness :
    ∃ resp, (dex_call_api_bulk httpPairs [addrOnes, badAddr]).2 = .ok resp
      ∧ resp.length = 2
      ∧ (∃ s, dictGet resp badAddr = some (Json.obj [("error", Json.str s)]))
      ∧ ∀ a ∈ [addrOnes, badAddr], a ≠ badAddr →
          dictGet resp a = some (httpPairs (dexUrl a)).body := by
  have h := dex_call_api_bulk_isolates_failures httpPairs [addrOnes, badAddr] badAddr
    (by decide) (by decide)
    (Or.inl (by decide))
    (by
      intro a ha hab
      rcases List.mem_cons.mp ha with h1 | h1
      · subst h1; exact ⟨by decide, by decide⟩
      · rcases List.mem_cons.mp h1 with h2 | h2
        · exact absurd h2 hab
        · cases h2)
  simpa using h

theorem find_loop_eq_firstMaxAbove (address : String) (pairs : List Json)
    (ms : List (Json × PyNum)) (best : Json) (l : PyNum)
    (h : matchedLiqsFloat address pairs = .ok ms) :
    find_loop address pairs best l =
      .ok (((firstMaxAbove l ms).map Prod.fst).getD best) := by
  induction pairs generalizing ms best l with
  | nil =>
    simp only [matchedLiqsFloat] at h
    cases h
    rfl
  | cons p rest ih =>
    simp only [matchedLiqsFloat] at h
    cases hc : pairCheck address p with
    | error e => rw [hc] at h; cases h
    | ok o =>
      rw [hc] at h
      cases o with
      | none =>
        simp only [find_loop, hc]
        exact ih ms best l h
      | some k =>
        cases hrest : matchedLiqsFloat address rest with
        | error e => rw [hrest] at h; cases h
        | ok ms2 =>
          rw [hrest] at h
          cases h
          simp only [find_loop, hc, firstMaxAbove]
          by_cases hlt : l.ltB k
          · rw [if_pos hlt, if_pos hlt]
            rw [ih ms2 p k hrest]
            cases hfm : firstMaxAbove k ms2 with
            | none => simp
            | some y => simp
          · rw [if_neg hlt, if_neg hlt]
            exact ih ms2 best l hrest

/-- C3 amended: `find_largest_pool_with_sol` filters the pairs to those
with `baseToken.address == target` and `quoteToken.address == SOL_MINT` and
returns the first-occurring match whose float64-converted `liquidity.usd`
is maximal among the matches and strictly exceeds the `-1` initial
accumulator (ties on the converted value broken by first occurrence); when
no match's converted liquidity exceeds `-1` — in particular when no pair
matches at all — it returns the empty dict `{}`, the code's not-found
value.  The hypothesis states that every pair is benign enough for the
loop not to raise (`matchedLiqsFloat` is the source's filter with the
float key of each survivor). -/
theorem find_largest_pool_selects_first_float_max (pairs : List Json)
    (address : String) (ms : List (Json × PyNum))
    (h : matchedLiqsFloat address pairs = .ok ms) :
    find_largest_pool_with_sol pairs address =
      .ok (((firstMaxAbove pyNegOne ms).map Prod.fst).getD (Json.obj [])) :=
  find_loop_eq_firstMaxAbove address pairs ms (Json.obj []) pyNegOne h

/-- A matching pair with integer liquidity `n` USD. -/
def liqPair (n : Int) : Json := Json.obj [
  ("baseToken", Json.obj [("address", Json.str "TGT")]),
  ("quoteToken", Json.obj [("address", Json.str SOL_MINT)]),
  ("liquidity", Json.obj [("usd", Json.intNum n)])]

/-- The exact `liquidity.usd` value of a pair entry, as the spec's exact
decimal reading. -/
def liqExactOf (p : Json) : Except PyRaise PyNum :=
  match pyGetAttr p "liquidity" (Json.obj []) with
  | .error e => .error e
  | .ok lf =>
    match pyGetAttr lf "usd" (Json.intNum 0) with
    | .error e => .error e
    | .ok lj => pyDecimal lj

theorem find_largest_pool_selects_first_float_max_witness :
    find_largest_pool_with_sol [liqPair 10, liqPair 50, liqPair 30] "TGT" =
      .ok (liqPair 50) := by
  have h := find_largest_pool_selects_first_float_max
    [liqPair 10, liqPair 50, liqPair 30] "TGT"
    [(liqPair 10, floatRound ⟨10, 1⟩), (liqPair 50, floatRound ⟨50, 1⟩),
     (liqPair 30, floatRound ⟨30, 1⟩)] (by rfl)
  exact h.trans (by rfl)

/-- C3, as frozen, is false at extreme magnitudes: both `10^16` and
`10^16 + 1` convert to the same float64, so with the pair of exact
liquidity `10^16` first, the loop's strict `>` never replaces it and the
code returns the first pair — yet the pair whose exact `liquidity.usd` is
maximal (and hence the claim's required result) is the second.  Swapping
the input order makes the code return the other pair, so the selection is
not determined by the exact values at all. -/
theorem find_largest_pool_breaks_exact_max_at_float_collision :
    find_largest_pool_with_sol
        [liqPair 10000000000000000, liqPair 10000000000000001] "TGT" =
      .ok (liqPair 10000000000000000)
    ∧ find_largest_pool_with_sol
        [liqPair 10000000000000001, liqPair 10000000000000000] "TGT" =
      .ok (liqPair 10000000000000001)
    ∧ liqExactOf (liqPair 10000000000000000) = .ok ⟨10000000000000000, 1⟩
    ∧ liqExactOf (liqPair 10000000000000001) = .ok ⟨10000000000000001, 1⟩
    ∧ (PyNum.ltB ⟨10000000000000000, 1⟩ ⟨10000000000000001, 1⟩) = true
    ∧ liqPair 10000000000000000 ≠ liqPair 10000000000000001 := by
  refine ⟨by rfl, by rfl, by decide, by decide, by decide, ?_⟩
  intro h
  have h2 := congrArg liqExactOf h
  rw [show liqExactOf (liqPair 10000000000000000) = .ok ⟨10000000000000000, 1⟩ from by decide,
      show liqExactOf (liqPair 10000000000000001) = .ok ⟨10000000000000001, 1⟩ from by decide] at h2
  cases h2

/-- C4 is a defect the spec itself flags: `find_largest_pool_with_sol`
compares `float(entry.get("liquidity", {}).get("usd", 0))` values, not
exact decimals.  At `2^53` the float64 grid spacing is 2, so the exact
liquidity values `2^53` and `2^53 + 1` convert to the same double and the
code keeps the first pair, while exact-value comparison of `liquidity.usd`
(the spec-side `firstMaxBy` over `matchedLiqsExact`) selects the second,
strictly larger, pair. -/
theorem find_largest_pool_uses_float_not_exact_comparison :
    find_largest_pool_with_sol
        [liqPair 9007199254740992, liqPair 9007199254740993] "TGT" =
      .ok (liqPair 9007199254740992)
    ∧ matchedLiqsExact "TGT" [liqPair 9007199254740992, liqPair 9007199254740993] =
      .ok [(liqPair 9007199254740992, ⟨9007199254740992, 1⟩),
           (liqPair 9007199254740993, ⟨9007199254740993, 1⟩)]
    ∧ (firstMaxBy [(liqPair 9007199254740992, ⟨9007199254740992, 1⟩),
        (liqPair 9007199254740993, ⟨9007199254740993, 1⟩)]).map Prod.fst =
      some (liqPair 9007199254740993)
    ∧ liqPair 9007199254740992 ≠ liqPair 9007199254740993 := by
  refine ⟨by rfl, by rfl, by rfl, ?_⟩
  intro h
  have h2 := congrArg liqExactOf h
  rw [show liqExactOf (liqPair 9007199254740992) = .ok ⟨9007199254740992, 1⟩ from by decide,
      show liqExactOf (liqPair 9007199254740993) = .ok ⟨9007199254740993, 1⟩ from by decide] at h2
  cases h2

def httpBirdData : String → HttpResp := fun _ => ⟨200, Json.obj [("data", Json.obj [])]⟩

/-- C5, as stated, fails for `BirdEyeClient.fetch_prices`: it performs no
address validation at all, so an address that fails `is_solana_address`
is joined straight into the query string and the GET is issued — the
request list is nonempty. -/
theorem birdeye_fetch_prices_requests_invalid_address :
    is_solana_address badAddr = false
    ∧ (birdeye_fetch_prices httpBirdData "https://public-api.birdeye.so" [badAddr]).1 =
      ["https://public-api.birdeye.so/defi/multi_price?list_address=not-an-address"] :=
  ⟨by decide, by rfl⟩

/-- C5 amended: in every DexScreener operation and in BirdEye's
`fetch_token_overview`, an invalid address never reaches a network call —
the single-address operations raise `InvalidSolanaAddress` with an empty
request list, `fetch_prices_dex` raises during up-front validation before
any request, and the bulk helper never requests the invalid address's URL.
`BirdEyeClient.fetch_prices` is the exception: it performs no address
validation and issues its request regardless (per the counterexample). -/
theorem invalid_address_never_fetched_outside_birdeye_fetch_prices
    (http : String → HttpResp) (addr : String) (hv : is_solana_address addr = false) :
    dex_call_api http addr = ([], .error (.invalidSolanaAddress addr))
    ∧ birdeye_fetch_token_overview http addr =
        ([], .error (.invalidSolanaAddress ("Invalid Solana address: " ++ addr)))
    ∧ (∀ addrs, addr ∈ addrs →
        (dex_fetch_prices_dex http addrs).1 = []
        ∧ ∃ e, (dex_fetch_prices_dex http addrs).2 = .error e)
    ∧ (∀ addrs, dexUrl addr ∉ (dex_call_api_bulk http addrs).1)
    ∧ dex_fetch_token_overview http addr = ([], .error (.invalidSolanaAddress addr)) := by
  have hval := dex_validate_error_of_invalid hv
  refine ⟨?_, ?_, ?_, ?_, ?_⟩
  · unfold dex_call_api
    rw [hval]
  · unfold birdeye_fetch_token_overview
    rw [hv]
    rfl
  · intro addrs hmem
    have hne : addrs.isEmpty = false := by
      cases addrs with
      | nil => cases hmem
      | cons x rest => rfl
    obtain ⟨e, he⟩ := dex_validate_many_error_of_mem hmem hv
    have hv2 : dex_validate_token_addresses addrs = .error e := by
      unfold dex_validate_token_addresses
      rw [hne]
      simpa using he
    unfold dex_fetch_prices_dex
    rw [hv2]
    exact ⟨rfl, e, rfl⟩
  · intro addrs
    by_cases hne : addrs.isEmpty
    · unfold dex_call_api_bulk
      rw [hne]
      simp
    · unfold dex_call_api_bulk
      rw [Bool.of_not_eq_true hne]
      simp only [Bool.false_eq_true, if_false]
      rw [dexBulk_foldl_fst]
      simp only [List.nil_append]
      intro hmem
      obtain ⟨a, ha, hurl⟩ := List.mem_map.mp hmem
      have haddr : a = addr := dexUrl_inj hurl
      subst haddr
      have hok : dexValidOk a = true := (List.mem_filter.mp ha).2
      unfold dexValidOk at hok
      rw [hval] at hok
      cases hok
  · unfold dex_fetch_token_overview
    rw [hval]

theorem invalid_address_never_fetched_outside_birdeye_fetch_prices_witness :
    dex_call_api httpBirdData badAddr = ([], .error (.invalidSolanaAddress badAddr))
    ∧ (dex_fetch_prices_dex httpBirdData [addrOnes, badAddr]).1 = []
    ∧ dexUrl badAddr ∉ (dex_call_api_bulk httpBirdData [addrOnes, badAddr]).1
    ∧ dex_fetch_token_overview httpBirdData badAddr =
        ([], .error (.invalidSolanaAddress badAddr)) := by
  have h := invalid_address_never_fetched_outside_birdeye_fetch_prices
    httpBirdData badAddr (by decide)
  exact ⟨h.1, (h.2.2.1 [addrOnes, badAddr] (by decide)).1,
    h.2.2.2.1 [addrOnes, badAddr], h.2.2.2.2⟩

def http401 : String → HttpResp := fun _ => ⟨401, Json.obj []⟩

def http500 : String → HttpResp := fun _ => ⟨500, Json.obj []⟩

/-- C6, as stated over the provider, is false: in `fetch_prices` a 401
response raises exactly the same `InvalidTokens("API call was
unsuccessful")` value as a 500 — no authorization-specific error, and the
generic error carries no status code, so nothing distinguishes the two
outcomes. -/
theorem birdeye_fetch_prices_401_indistinguishable_from_500 :
    (birdeye_fetch_prices http401 "https://public-api.birdeye.so" [addrOnes]).2 =
      .error (.invalidTokens (.msg "API call was unsuccessful"))
    ∧ (birdeye_fetch_prices http500 "https://public-api.birdeye.so" [addrOnes]).2 =
      .error (.invalidTokens (.msg "API call was unsuccessful")) :=
  ⟨by decide, by decide⟩

/-- C6 amended: only `fetch_token_overview` special-cases 401, raising
`InvalidTokens` carrying `{"CODE": 401, "message": "Token is not
Authorized"}` — a value distinguishable from the generic
`InvalidTokens("API call was unsuccessful")` raised for every other
non-200 status.  The generic error carries no status code (a 500 yields
the same error value as any other failing status rather than an
`UpstreamError{500}`), and `fetch_prices` raises the generic error for
every non-200 status, 401 included. -/
theorem birdeye_overview_distinguishes_401_but_carries_no_code
    (http : String → HttpResp) (addr : String) (hv : is_solana_address addr = true) :
    ((http (birdeyeOverviewUrl addr)).status = 401 →
      (birdeye_fetch_token_overview http addr).2 =
        .error (.invalidTokens (.codeMsg 401 "Token is not Authorized")))
    ∧ ((http (birdeyeOverviewUrl addr)).status ≠ 200 →
        (http (birdeyeOverviewUrl addr)).status ≠ 401 →
        (birdeye_fetch_token_overview http addr).2 =
          .error (.invalidTokens (.msg "API call was unsuccessful")))
    ∧ PyRaise.invalidTokens (.codeMsg 401 "Token is not Authorized") ≠
        PyRaise.invalidTokens (.msg "API call was unsuccessful")
    ∧ ∀ (baseUrl : String) (addrs : List String), addrs.isEmpty = false →
        (http (birdeyeMultiUrl baseUrl addrs)).status ≠ 200 →
        (birdeye_fetch_prices http baseUrl addrs).2 =
          .error (.invalidTokens (.msg "API call was unsuccessful")) := by
  refine ⟨?_, ?_, by decide, ?_⟩
  · intro h401
    simp [birdeye_fetch_token_overview, hv, h401]
  · intro h200 h401
    simp [birdeye_fetch_token_overview, hv, h200, h401]
  · intro baseUrl addrs hne hs
    simp [birdeye_fetch_prices, hne, hs]

def httpMix : String → HttpResp := fun url =>
  ⟨if url == birdeyeOverviewUrl addrOnes then 401 else 500, Json.obj []⟩

theorem birdeye_overview_distinguishes_401_but_carries_no_code_witness :
    (birdeye_fetch_token_overview httpMix addrOnes).2 =
      .error (.invalidTokens (.codeMsg 401 "Token is not Authorized"))
    ∧ (birdeye_fetch_prices httpMix "b" [addrOnes]).2 =
      .error (.invalidTokens (.msg "API call was unsuccessful"))
    ∧ PyRaise.invalidTokens (.codeMsg 401 "Token is not Authorized") ≠
        PyRaise.invalidTokens (.msg "API call was unsuccessful") := by
  have h := birdeye_overview_distinguishes_401_but_carries_no_code
    httpMix addrOnes (by decide)
  exact ⟨h.1 (by decide), h.2.2.2 "b" [addrOnes] (by decide) (by decide), h.2.2.1⟩

/-- C7: empty *lists* do raise `NoPositionsError` before any work, but an
empty *string* in a single-address operation does not: inside
`_validate_token_address` the `NoPositionsError` raised for an empty
address is caught by the function's own `except Exception` clause and
re-raised as `InvalidSolanaAddress('')` — contradicting the function's
docstring ("Raises NoPositionsError: If the token address is empty").
BirdEye's single-address operation likewise raises `InvalidSolanaAddress`
for the empty string. -/
theorem dex_empty_address_error_is_swallowed :
    dex_validate_token_address_inner "" = .error (.noPositions "")
    ∧ dex_validate_token_address "" = .error (.invalidSolanaAddress "")
    ∧ (dex_call_api httpBirdData "").2 = .error (.invalidSolanaAddress "")
    ∧ dex_validate_token_addresses [] =
        .error (.noPositions "Token addresses list is empty")
    ∧ (dex_call_api_bulk httpBirdData ([] : List String)).2 =
        .error (.noPositions "Token addresses list is empty")
    ∧ (birdeye_fetch_prices httpBirdData "b" []).2 =
        .error (.noPositions "No tokens provided")
    ∧ (birdeye_fetch_token_overview httpBirdData "").2 =
        .error (.invalidSolanaAddress "Invalid Solana address: ") :=
  ⟨by rfl, by rfl, by rfl, by rfl, by rfl, by rfl, by rfl⟩

/-- A pair entry with no `priceUsd` and no `liquidity` field: both default
to `0.0`. -/
def defaultedPair : Json := Json.obj [("dexId", Json.str "ray"),
  ("baseToken", Json.obj [("symbol", Json.str "G")])]

/-- C8: absent fields do default to exact decimal zero (first conjunct),
but the venue-drop recovery never drops the failing venue.  `dex_id` is
only (re)bound *after* the `Decimal` conversions, so the
`except (ValueError, TypeError)` handler always sees a stale binding:
when the second pair's `priceUsd` is `None`, `del
prices[address][dex_id]` deletes the *first* (successfully parsed, `ray`)
venue and the result for the address is empty — compare the third
conjunct, the same good pair alone, which survives.  When the *first*
pair fails the same way, `dex_id` is unbound and the whole call raises
`UnboundLocalError` (fourth conjunct).  In the BirdEye flow a present
entry lacking `value` raises `KeyError` instead of defaulting (fifth
conjunct). -/
theorem dex_parse_recovery_drops_wrong_venue :
    dex_normalize [("A", Json.obj [("pairs", Json.arr [defaultedPair])])] [] =
      .ok [("A", [(Json.str "ray", [(Json.str "G", ⟨pyZero, pyZero⟩)])])]
    ∧ dex_normalize [("A", Json.obj [("pairs", Json.arr [goodPair, badPair])])] [] =
      .ok [("A", [])]
    ∧ dex_normalize [("A", Json.obj [("pairs", Json.arr [goodPair])])] [] =
      .ok [("A", [(Json.str "ray", [(Json.str "GOOD", ⟨⟨2, 1⟩, ⟨100, 1⟩⟩)])])]
    ∧ dex_normalize [("A", Json.obj [("pairs", Json.arr [badPair, goodPair])])] [] =
      .error .unboundLocal
    ∧ birdeye_build_prices ["A"]
        (Json.obj [("data", Json.obj [("A", Json.obj [("value", Json.intNum 5)])])]) =
      .error .keyError :=
  ⟨by rfl, by rfl, by rfl, by rfl, by rfl⟩

/-- C1: `fetch_prices` computes exactly the mapping the claim describes —
an entry for every requested address, zero-valued when the upstream `data`
omits the address (second conjunct, the loop of lines 79-91) — but the
method never returns it: its body ends at `print(prices)`, so a successful
call returns `None` (first conjunct), contradicting the function's own
docstring and `Dict[str, PriceInfo]` annotation. -/
theorem birdeye_fetch_prices_discards_computed_mapping :
    birdeye_fetch_prices httpBirdData "https://public-api.birdeye.so" [addrOnes] =
      ([birdeyeMultiUrl "https://public-api.birdeye.so" [addrOnes]], .ok ())
    ∧ birdeye_build_prices [addrOnes] (Json.obj [("data", Json.obj [])]) =
      .ok [(addrOnes, ⟨pyZero, pyZero⟩)] :=
  ⟨by rfl, by rfl⟩

/-- C9: for a valid address whose 200 payload has an absent `pairs` key or
an empty `pairs` list, `fetch_token_overview` neither crashes nor builds a
record: it returns the `"Pairs Not Found"` string — a value of a different
Python type from every populated overview table, hence distinguishable
from all of them. -/
theorem dex_overview_empty_pairs_signals_not_found
    (http : String → HttpResp) (addr : String) (fields : List (String × Json))
    (hv : is_solana_address addr = true)
    (hs : (http (dexUrl addr)).status = 200)
    (hb : (http (dexUrl addr)).body = Json.obj fields)
    (hp : dictGet fields "pairs" = none ∨ dictGet fields "pairs" = some (Json.arr [])) :
    dex_fetch_token_overview http addr = ([dexUrl addr], .ok .pairsNotFound)
    ∧ ∀ d, OverviewResult.pairsNotFound ≠ OverviewResult.table d := by
  have hval := dex_validate_ok_of_valid hv
  constructor
  · rcases hp with hp | hp <;>
      simp [dex_fetch_token_overview, dex_call_api, hval, hs, hb,
        dex_build_overview, pyGetAttr, hp, jsonTruthy]
  · intro d h
    cases h

theorem dex_overview_empty_pairs_signals_not_found_witness :
    dex_fetch_token_overview (fun _ => ⟨200, Json.obj [("pairs", Json.arr [])]⟩) addrOnes =
      ([dexUrl addrOnes], .ok .pairsNotFound) := by
  have h := dex_overview_empty_pairs_signals_not_found
    (fun _ => ⟨200, Json.obj [("pairs", Json.arr [])]⟩) addrOnes
    [("pairs", Json.arr [])] (by decide) (by decide) (by rfl) (Or.inr (by rfl))
  exact h.1

theorem birdeye_loop_get_of_not_mem (data : Json) (addrs : List String)
    (p m : List (String × PriceInfo)) (t : String) (ht : t ∉ addrs)
    (h : birdeye_prices_loop data addrs p = .ok m) : dictGet m t = dictGet p t := by
  induction addrs generalizing p with
  | nil =>
    simp only [birdeye_prices_loop] at h
    cases h
    rfl
  | cons x rest ih =>
    simp only [birdeye_prices_loop] at h
    cases hx : birdeye_token_price data x with
    | error e => rw [hx] at h; cases h
    | ok pix =>
      rw [hx] at h
      have hxt : x ≠ t := fun hxx => ht (hxx ▸ List.mem_cons_self x rest)
      rw [ih _ (fun hr => ht (List.mem_cons_of_mem x hr)) h,
        dictGet_dictSet_ne _ _ hxt]

theorem birdeye_loop_get_of_mem (data : Json) (addrs : List String)
    (p m : List (String × PriceInfo)) (t : String) (pi : PriceInfo)
    (hpi : birdeye_token_price data t = .ok pi)
    (h : birdeye_prices_loop data addrs p = .ok m) (ht : t ∈ addrs) :
    dictGet m t = some pi := by
  induction addrs generalizing p with
  | nil => cases ht
  | cons x rest ih =>
    simp only [birdeye_prices_loop] at h
    cases hx : birdeye_token_price data x with
    | error e => rw [hx] at h; cases h
    | ok pix =>
      rw [hx] at h
      by_cases htr : t ∈ rest
      · exact ih _ h htr
      · have hxt : t = x := by
          rcases List.mem_cons.mp ht with h1 | h1
          · exact h1
          · exact absurd h1 htr
        subst hxt
        have hpp : pix = pi := by
          rw [hpi] at hx
          exact (Except.ok.inj hx).symm
        rw [birdeye_loop_get_of_not_mem data rest _ _ _ htr h, hpp,
          dictGet_dictSet_self]

/-- C10: in the `fetch_prices` loop, whenever the upstream entry for a
requested token is present (and truthy), the constructed `PriceInfo` takes
its `price` from the entry's `value` field and its `liquidity` from the
entry's `priceChange24h` field — the 24-hour price change, not any
liquidity figure. -/
theorem birdeye_price_fields_from_value_and_price_change
    (addrs : List String) (data d entry v c : Json)
    (m : List (String × PriceInfo)) (t : String) (pv pc : PyNum)
    (hm : birdeye_build_prices addrs data = .ok m)
    (ht : t ∈ addrs)
    (hd : pySub data "data" = .ok d)
    (hentry : pyGetAttr d t Json.null = .ok entry)
    (htr : jsonTruthy entry = true)
    (hv : pySub entry "value" = .ok v)
    (hpv : pyDecimal v = .ok pv)
    (hc : pySub entry "priceChange24h" = .ok c)
    (hpc : pyDecimal c = .ok pc) :
    dictGet m t = some ⟨pv, pc⟩ := by
  have hpi : birdeye_token_price data t = .ok ⟨pv, pc⟩ := by
    simp only [birdeye_token_price, hd, hentry, htr, hv, hpv, hc, hpc, if_true]
  exact birdeye_loop_get_of_mem data addrs [] m t ⟨pv, pc⟩ hpi hm ht

def c10Data : Json :=
  Json.obj [("data", Json.obj [(addrOnes,
    Json.obj [("value", Json.intNum 7), ("priceChange24h", Json.floatNum ⟨3, 2⟩)])])]

theorem birdeye_price_fields_from_value_and_price_change_witness :
    birdeye_build_prices [addrOnes] c10Data =
      .ok [(addrOnes, ⟨⟨7, 1⟩, ⟨3, 2⟩⟩)]
    ∧ dictGet [(addrOnes, (⟨⟨7, 1⟩, ⟨3, 2⟩⟩ : PriceInfo))] addrOnes =
      some ⟨⟨7, 1⟩, ⟨3, 2⟩⟩ := by
  refine ⟨by rfl, ?_⟩
  exact birdeye_price_fields_from_value_and_price_change
    [addrOnes] c10Data
    (Json.obj [(addrOnes,
      Json.obj [("value", Json.intNum 7), ("priceChange24h", Json.floatNum ⟨3, 2⟩)])])
    (Json.obj [("value", Json.intNum 7), ("priceChange24h", Json.floatNum ⟨3, 2⟩)])
    (Json.intNum 7) (Json.floatNum ⟨3, 2⟩)
    [(addrOnes, ⟨⟨7, 1⟩, ⟨3, 2⟩⟩)] addrOnes ⟨7, 1⟩ ⟨3, 2⟩
    (by rfl) (by decide) (by rfl) (by rfl) (by rfl) (by rfl) (by rfl) (by rfl) (by rfl)
